import Mathlib

/-!
Shallow embedding of the Paymob Book Store Django application: the data
model (accounts/models.py, books/models.py), the permission classes
(accounts/api/permissions.py), the viewset configuration
(accounts/api/views.py, books/api/views.py) and the serializer-level
create/update logic (accounts/api/serializers.py), together with proofs
about them.
-/

namespace BookStore

/-- accounts/enums.py UserRole: ADMIN = 1, AUTHOR = 2, REVIEWER = 3, OTHER = 0. -/
inductive UserRole where
  | admin
  | author
  | reviewer
  | otherRole
deriving DecidableEq, Repr

/-- accounts/enums.py: the integer value of each role. -/
def UserRole.value : UserRole → Nat
  | .admin => 1
  | .author => 2
  | .reviewer => 3
  | .otherRole => 0

/-- A saved row of the accounts.User table, as seen by the permission layer.
Django compares model instances by primary key, so `id` carries identity. -/
structure UserRec where
  id : Nat
  role : UserRole
deriving DecidableEq, Repr

/-- A saved row of the books.Book table (books/models.py Book); only the
fields the permission and queryset layers inspect are kept. -/
structure BookRec where
  id : Nat
  slug : String
  authorId : Nat
deriving DecidableEq, Repr

/-- A saved row of the books.Review table (books/models.py Review). The
rating column is a PositiveIntegerField with MinValueValidator 1 and
MaxValueValidator 5; it is carried as an integer here so that
out-of-range inputs can be talked about. -/
structure ReviewRec where
  id : Nat
  bookId : Nat
  reviewerId : Nat
  rating : Int
deriving DecidableEq, Repr

/-- A saved row of the books.Favorites table (books/models.py Favorites). -/
structure FavRec where
  id : Nat
  userId : Nat
  bookId : Nat
deriving DecidableEq, Repr

/-- The possible targets of an object-level permission check
(accounts/api/permissions.py IsOwner.has_object_permission): a User, a
Book, a Review, a Favorites row, or a model of any other type
(the final `return False` branch). -/
inductive Obj where
  | user (u : UserRec)
  | book (b : BookRec)
  | review (r : ReviewRec)
  | favorite (f : FavRec)
  | otherModel
deriving DecidableEq, Repr

/-- The HTTP methods a REST framework request can carry. -/
inductive Method where
  | GET
  | HEAD
  | OPTIONS
  | POST
  | PUT
  | PATCH
  | DELETE
deriving DecidableEq, Repr

/-- rest_framework.permissions.SAFE_METHODS: GET, HEAD, OPTIONS. -/
def SAFE_METHODS : List Method := [Method.GET, Method.HEAD, Method.OPTIONS]

/-- A request as the permission and queryset layers see it: the HTTP
method, the requesting user (`none` models an unauthenticated request,
whose AnonymousUser has is_authenticated = False), and the parsed
`expand` query parameter. -/
structure Request where
  method : Method
  user : Option UserRec
  expand : List String := []
deriving DecidableEq, Repr

/-- `request.user and request.user.is_authenticated` as a boolean. -/
def Request.isAuthenticated (req : Request) : Bool := req.user.isSome

/-- accounts/utils.py is_author: user.role == UserRole.AUTHOR. -/
def is_author (u : UserRec) : Bool := u.role == UserRole.author

/-- accounts/utils.py is_reviewer: user.role == UserRole.REVIEWER. -/
def is_reviewer (u : UserRec) : Bool := u.role == UserRole.reviewer

/-- A DRF permission: a request-level check and an object-level check. -/
structure Permission where
  hasPermission : Request → Bool
  hasObjectPermission : Request → Obj → Bool

/-- rest_framework BasePermission.has_object_permission: returns True
unless a subclass overrides it. -/
def defaultObjectPermission : Request → Obj → Bool := fun _ _ => true

/-- accounts/api/permissions.py IsAuthor: request-level check is
`request.user and request.user.is_authenticated and is_author(request.user)`;
the object-level check is inherited from BasePermission (always True). -/
def IsAuthor : Permission where
  hasPermission := fun req =>
    match req.user with
    | some u => is_author u
    | none => false
  hasObjectPermission := defaultObjectPermission

/-- accounts/api/permissions.py IsReviewer: request-level check is
`request.user and request.user.is_authenticated and is_reviewer(request.user)`;
the object-level check is inherited from BasePermission (always True). -/
def IsReviewer : Permission where
  hasPermission := fun req =>
    match req.user with
    | some u => is_reviewer u
    | none => false
  hasObjectPermission := defaultObjectPermission

/-- Django model equality is primary-key equality (for the same concrete
model); `request.user == x` is False for an anonymous user. -/
def requestUserIs (requestUser : Option UserRec) (targetId : Nat) : Bool :=
  match requestUser with
  | some u => u.id == targetId
  | none => false

/-- accounts/api/permissions.py IsOwner.has_object_permission: the
isinstance chain over User, Book, Review, Favorites, ending in
`return False`. -/
def IsOwner_has_object_permission (requestUser : Option UserRec) (obj : Obj) : Bool :=
  match obj with
  | .user u => requestUserIs requestUser u.id
  | .book b => requestUserIs requestUser b.authorId
  | .review r => requestUserIs requestUser r.reviewerId
  | .favorite f => requestUserIs requestUser f.userId
  | .otherModel => false

/-- accounts/api/permissions.py IsOwner: request-level check is
authentication; object-level check is ownership per object type. -/
def IsOwner : Permission where
  hasPermission := fun req => req.isAuthenticated
  hasObjectPermission := fun req obj => IsOwner_has_object_permission req.user obj

/-- accounts/api/permissions.py ReadOnly: request method among
SAFE_METHODS and user authenticated; object-level check inherited
from BasePermission (always True). -/
def ReadOnly : Permission where
  hasPermission := fun req =>
    SAFE_METHODS.contains req.method && req.isAuthenticated
  hasObjectPermission := defaultObjectPermission

/-- rest_framework.permissions.AllowAny: grants every request. -/
def AllowAny : Permission where
  hasPermission := fun _ => true
  hasObjectPermission := defaultObjectPermission

/-- rest_framework.permissions.OR, the class behind the pipe in
`permission_classes = [ReadOnly | IsAuthor]` (framework code, not part of
this repository; embedded from its documented behaviour, the spec's
"Boolean OR/AND composition of these checks"): the request-level check is
the disjunction of the operands' request-level checks, and the
object-level check passes when either operand passes both its
request-level and its object-level check. -/
def permissionOr (p q : Permission) : Permission where
  hasPermission := fun req => p.hasPermission req || q.hasPermission req
  hasObjectPermission := fun req obj =>
    (p.hasPermission req && p.hasObjectPermission req obj) ||
    (q.hasPermission req && q.hasObjectPermission req obj)

/-- rest_framework APIView.check_permissions: every permission in the
view's list must grant the request. -/
def checkPermissions (perms : List Permission) (req : Request) : Bool :=
  perms.all fun p => p.hasPermission req

/-- rest_framework APIView.check_object_permissions: every permission in
the view's list must grant the request on the object. -/
def checkObjectPermissions (perms : List Permission) (req : Request) (obj : Obj) : Bool :=
  perms.all fun p => p.hasObjectPermission req obj

/-- A detail-route request (retrieve/update/delete of an existing object)
is allowed when both the request-level checks and the object-level
checks pass (rest_framework generics: check_permissions at dispatch,
check_object_permissions inside get_object). -/
def objectRequestAllowed (perms : List Permission) (req : Request) (obj : Obj) : Bool :=
  checkPermissions perms req && checkObjectPermissions perms req obj

/-- books/api/views.py BookViewSet.permission_classes = [ReadOnly | IsAuthor]. -/
def BookViewSet_permission_classes : List Permission :=
  [permissionOr ReadOnly IsAuthor]

/-- books/api/views.py ReviewViewSet.permission_classes = [ReadOnly | IsReviewer]. -/
def ReviewViewSet_permission_classes : List Permission :=
  [permissionOr ReadOnly IsReviewer]

/-- books/api/views.py FavoritesViewSet.permission_classes = [IsOwner]. -/
def FavoritesViewSet_permission_classes : List Permission := [IsOwner]

/-- accounts/api/views.py UserViewSet.permission_classes = [IsOwner]. -/
def UserViewSet_permission_classes : List Permission := [IsOwner]

/-- accounts/api/views.py UserViewSet.get_permissions: AllowAny for the
create action, the class-level permissions otherwise. -/
def UserViewSet_get_permissions (action : String) : List Permission :=
  if action == "create" then [AllowAny] else UserViewSet_permission_classes

/-! ### User creation and update (accounts/models.py, accounts/api/serializers.py) -/

/-- accounts/models.py User.base_role = UserRole.OTHER (the class attribute
of the concrete User model, the one the registration endpoint creates). -/
def User_base_role : UserRole := UserRole.otherRole

/-- An accounts.User row as the ORM sees it: `pk = none` means the
instance has not been inserted yet. -/
structure UserState where
  pk : Option Nat
  username : String
  email : String
  password : String
  role : UserRole
deriving DecidableEq, Repr

/-- accounts/models.py User.save: on insert (`not self.pk`) the role is
overwritten with base_role before the row is written; on a later save the
fields are stored as they are. The database assigns the fresh primary key. -/
def User_save (u : UserState) (freshPk : Nat) : UserState :=
  match u.pk with
  | none => { u with role := User_base_role, pk := some freshPk }
  | some _ => u

/-- The validated payload of a registration request
(accounts/api/serializers.py UserSerializer fields). -/
structure RegistrationData where
  username : String
  email : String
  password : String
  role : UserRole
deriving DecidableEq, Repr

/-- accounts/api/serializers.py RESTRICTED_ROLE_CHOICES: the roles a
registration request may supply (AUTHOR and REVIEWER). -/
def RESTRICTED_ROLE_CHOICES : List UserRole := [UserRole.author, UserRole.reviewer]

/-- accounts/api/serializers.py UserSerializer.create: delegates to
User.objects.create_user, which builds an unsaved User from the validated
data (including the requested role) and then calls User.save. -/
def UserSerializer_create (data : RegistrationData) (freshPk : Nat) : UserState :=
  User_save
    { pk := none
      username := data.username
      email := data.email
      password := data.password
      role := data.role }
    freshPk

/-- The validated payload of a profile-update request; `none` marks a
field the request did not supply. -/
structure UserUpdateData where
  username : Option String := none
  email : Option String := none
  password : Option String := none
  role : Option UserRole := none
deriving DecidableEq, Repr

/-- accounts/api/serializers.py UserSerializer.update: pops `role` from
the validated data, then ModelSerializer.update writes each remaining
supplied field onto the instance and saves it. -/
def UserSerializer_update (inst : UserState) (data : UserUpdateData) : UserState :=
  let remaining : UserUpdateData := { data with role := none }
  let updated : UserState :=
    { inst with
      username := remaining.username.getD inst.username
      email := remaining.email.getD inst.email
      password := remaining.password.getD inst.password }
  User_save updated 0

/-! ### Review and Favorites persistence (books/models.py, books/api) -/

/-- The failure modes of a create/update call: serializer validation
error, unique-constraint violation, or target row not found. -/
inductive ApiError where
  | validation
  | uniqueViolation
  | notFound
deriving DecidableEq, Repr

/-- books/models.py Review.rating: a PositiveIntegerField (database range
0 .. 2^31 - 1) with MinValueValidator 1 and MaxValueValidator 5; the
serializer runs all of these on create and update. -/
def Review_rating_valid (rating : Int) : Bool :=
  decide (0 ≤ rating) && decide (rating ≤ 2147483647) &&
    decide (1 ≤ rating) && decide (rating ≤ 5)

/-- The stored tables the books endpoints touch. -/
structure DB where
  users : List UserRec
  books : List BookRec
  reviews : List ReviewRec
  favorites : List FavRec
deriving DecidableEq, Repr

/-- A database with no rows. -/
def emptyDB : DB := { users := [], books := [], reviews := [], favorites := [] }

/-- Is there already a review for this (book, reviewer) pair
(books/models.py Review.Meta.unique_together)? -/
def reviewPairExists (rs : List ReviewRec) (bookId reviewerId : Nat) : Bool :=
  rs.any fun r => r.bookId == bookId && r.reviewerId == reviewerId

/-- Is there already a favorite for this (user, book) pair
(books/models.py Favorites.Meta.unique_together)? -/
def favPairExists (fs : List FavRec) (userId bookId : Nat) : Bool :=
  fs.any fun f => f.userId == userId && f.bookId == bookId

/-- Is a review row with this primary key present? -/
def reviewIdExists (rs : List ReviewRec) (rid : Nat) : Bool :=
  rs.any fun r => r.id == rid

/-- Is a favorites row with this primary key present? -/
def favIdExists (fs : List FavRec) (fid : Nat) : Bool :=
  fs.any fun f => f.id == fid

/-- Creating a review: the serializer validates the rating and the
(book, reviewer) unique_together constraint; the database also rejects a
duplicate primary key. On any failure nothing is written. -/
def Review_create (db : DB) (r : ReviewRec) : Except ApiError DB :=
  if !Review_rating_valid r.rating then .error .validation
  else if reviewPairExists db.reviews r.bookId r.reviewerId then .error .uniqueViolation
  else if reviewIdExists db.reviews r.id then .error .uniqueViolation
  else .ok { db with reviews := r :: db.reviews }

/-- The effect of a successful review update on one row: the row with the
target primary key takes the new field values, every other row is kept. -/
def Review_apply_update (rid bookId reviewerId : Nat) (rating : Int)
    (r : ReviewRec) : ReviewRec :=
  if r.id == rid then { r with bookId := bookId, reviewerId := reviewerId, rating := rating }
  else r

/-- Updating a review: 404 when the row does not exist, then rating
validation, then the unique_together check against every other row; on
any failure nothing is written. -/
def Review_update (db : DB) (rid bookId reviewerId : Nat) (rating : Int) :
    Except ApiError DB :=
  if !reviewIdExists db.reviews rid then .error .notFound
  else if !Review_rating_valid rating then .error .validation
  else if db.reviews.any (fun r => r.id != rid && r.bookId == bookId && r.reviewerId == reviewerId)
    then .error .uniqueViolation
  else .ok { db with reviews := db.reviews.map (Review_apply_update rid bookId reviewerId rating) }

/-- Deleting a review removes the row with the target primary key. -/
def Review_delete (db : DB) (rid : Nat) : DB :=
  { db with reviews := db.reviews.filter fun r => r.id != rid }

/-- Creating a favorite: the serializer validates the (user, book)
unique_together constraint; the database also rejects a duplicate
primary key. On any failure nothing is written. -/
def Favorites_create (db : DB) (f : FavRec) : Except ApiError DB :=
  if favPairExists db.favorites f.userId f.bookId then .error .uniqueViolation
  else if favIdExists db.favorites f.id then .error .uniqueViolation
  else .ok { db with favorites := f :: db.favorites }

/-- The effect of a successful favorite update on one row. -/
def Fav_apply_update (fid userId bookId : Nat) (f : FavRec) : FavRec :=
  if f.id == fid then { f with userId := userId, bookId := bookId }
  else f

/-- Updating a favorite: 404 when the row does not exist, then the
unique_together check against every other row; on failure nothing is
written. -/
def Favorites_update (db : DB) (fid userId bookId : Nat) : Except ApiError DB :=
  if !favIdExists db.favorites fid then .error .notFound
  else if db.favorites.any (fun f => f.id != fid && f.userId == userId && f.bookId == bookId)
    then .error .uniqueViolation
  else .ok { db with favorites := db.favorites.map (Fav_apply_update fid userId bookId) }

/-- Deleting a favorite removes the row with the target primary key. -/
def Favorites_delete (db : DB) (fid : Nat) : DB :=
  { db with favorites := db.favorites.filter fun f => f.id != fid }

/-- A mutating API call against the reviews or favorites resource. -/
inductive Op where
  | createReview (r : ReviewRec)
  | updateReview (rid bookId reviewerId : Nat) (rating : Int)
  | deleteReview (rid : Nat)
  | createFavorite (f : FavRec)
  | updateFavorite (fid userId bookId : Nat)
  | deleteFavorite (fid : Nat)
deriving DecidableEq, Repr

/-- A failed call leaves the database unchanged; a successful one
commits the new state. -/
def commit (res : Except ApiError DB) (db : DB) : DB :=
  match res with
  | .ok db2 => db2
  | .error _ => db

/-- The state transition of one API call. -/
def applyOp (db : DB) (op : Op) : DB :=
  match op with
  | .createReview r => commit (Review_create db r) db
  | .updateReview rid b v rt => commit (Review_update db rid b v rt) db
  | .deleteReview rid => Review_delete db rid
  | .createFavorite f => commit (Favorites_create db f) db
  | .updateFavorite fid u b => commit (Favorites_update db fid u b) db
  | .deleteFavorite fid => Favorites_delete db fid

/-- The state reached from the empty database by a sequence of calls. -/
def run (ops : List Op) : DB := ops.foldl applyOp emptyDB

/-- At most one review per (book, reviewer) pair. -/
def ReviewPairsUnique (rs : List ReviewRec) : Prop :=
  rs.Pairwise fun a b => a.bookId ≠ b.bookId ∨ a.reviewerId ≠ b.reviewerId

/-- At most one favorite per (user, book) pair. -/
def FavPairsUnique (fs : List FavRec) : Prop :=
  fs.Pairwise fun a b => a.userId ≠ b.userId ∨ a.bookId ≠ b.bookId

/-- Review primary keys are pairwise distinct. -/
def ReviewIdsUnique (rs : List ReviewRec) : Prop :=
  rs.Pairwise fun a b => a.id ≠ b.id

/-- Favorites primary keys are pairwise distinct. -/
def FavIdsUnique (fs : List FavRec) : Prop :=
  fs.Pairwise fun a b => a.id ≠ b.id

/-- The database invariant the constraints maintain. -/
def DBInv (db : DB) : Prop :=
  ReviewIdsUnique db.reviews ∧ ReviewPairsUnique db.reviews ∧
    FavIdsUnique db.favorites ∧ FavPairsUnique db.favorites

/-! ### Queryset construction (books/api/views.py, accounts/api/views.py) -/

/-- A queryset: the rows it will yield and the related tables it joins
eagerly (select_related) or prefetches (prefetch_related) before
serialization. -/
structure Queryset (α : Type) where
  rows : List α
  select_related : List String := []
  prefetch_related : List String := []
deriving DecidableEq, Repr

/-- The relations a queryset joins or prefetches eagerly. -/
def Queryset.joins {α : Type} (qs : Queryset α) : List String :=
  qs.select_related ++ qs.prefetch_related

/-- Modelled from the spec: rest_flex_fields.utils.is_expanded is a
third-party helper not present in this repository; per the spec the
expansion decision is "membership testing" of a relation name against
"a request's expand parameter". -/
def is_expanded (req : Request) (field : String) : Bool :=
  req.expand.contains field

/-- books/api/views.py BookViewSet.permitted_expands. -/
def BookViewSet_permitted_expands : List String := ["author", "reviews"]

/-- books/api/views.py ReviewViewSet.permitted_expands. -/
def ReviewViewSet_permitted_expands : List String := ["book", "reviewer"]

/-- books/api/views.py FavoritesViewSet.permitted_expands. -/
def FavoritesViewSet_permitted_expands : List String := ["book", "user"]

/-- accounts/api/views.py UserViewSet.permitted_expands. -/
def UserViewSet_permitted_expands : List String := ["books", "reviews", "favorites"]

/-- books/api/views.py BookViewSet.get_queryset: all books, with author
joined when the author relation is expanded and reviews prefetched when
the reviews relation is expanded. -/
def BookViewSet_get_queryset (db : DB) (req : Request) : Queryset BookRec :=
  let qs : Queryset BookRec := { rows := db.books }
  let qs := if is_expanded req "author" then
      { qs with select_related := qs.select_related ++ ["author"] } else qs
  let qs := if is_expanded req "reviews" then
      { qs with prefetch_related := qs.prefetch_related ++ ["reviews"] } else qs
  qs

/-- books/api/views.py ReviewViewSet.get_queryset: all reviews, with the
book and/or the reviewer joined when expanded. -/
def ReviewViewSet_get_queryset (db : DB) (req : Request) : Queryset ReviewRec :=
  let qs : Queryset ReviewRec := { rows := db.reviews }
  let qs := if is_expanded req "book" then
      { qs with select_related := qs.select_related ++ ["book"] } else qs
  let qs := if is_expanded req "reviewer" then
      { qs with select_related := qs.select_related ++ ["reviewer"] } else qs
  qs

/-- books/api/views.py FavoritesViewSet.get_queryset: the favorites
filtered to the requesting user (queryset.filter(user=self.request.user)),
with the book and/or the user joined when expanded. -/
def FavoritesViewSet_get_queryset (db : DB) (req : Request) : Queryset FavRec :=
  let qs : Queryset FavRec := { rows := db.favorites }
  let qs := { qs with rows := qs.rows.filter fun f => requestUserIs req.user f.userId }
  let qs := if is_expanded req "book" then
      { qs with select_related := qs.select_related ++ ["book"] } else qs
  let qs := if is_expanded req "user" then
      { qs with select_related := qs.select_related ++ ["user"] } else qs
  qs

/-- accounts/api/views.py UserViewSet.get_queryset: all users, with
books, reviews and/or favorites prefetched when expanded. -/
def UserViewSet_get_queryset (db : DB) (req : Request) : Queryset UserRec :=
  let qs : Queryset UserRec := { rows := db.users }
  let qs := if is_expanded req "books" then
      { qs with prefetch_related := qs.prefetch_related ++ ["books"] } else qs
  let qs := if is_expanded req "reviews" then
      { qs with prefetch_related := qs.prefetch_related ++ ["reviews"] } else qs
  let qs := if is_expanded req "favorites" then
      { qs with prefetch_related := qs.prefetch_related ++ ["favorites"] } else qs
  qs

/-! ### Concrete records used in the closed theorems -/

/-- A first review: book 1, reviewer 2, a valid rating. -/
def c3Review0 : ReviewRec := { id := 1, bookId := 1, reviewerId := 2, rating := 4 }

/-- A second review for the same (book, reviewer) pair. -/
def c3Review1 : ReviewRec := { id := 2, bookId := 1, reviewerId := 2, rating := 5 }

/-- A review whose rating 6 is outside 1..5. -/
def c7BadReview : ReviewRec := { id := 1, bookId := 1, reviewerId := 2, rating := 6 }

/-- The requesting user of the C8 witness. -/
def c8User : UserRec := { id := 5, role := UserRole.reviewer }

/-- A favorite owned by `c8User`. -/
def c8Fav : FavRec := { id := 1, userId := 5, bookId := 9 }

/-- A database holding just `c8Fav`. -/
def c8DB : DB := { users := [c8User], books := [], reviews := [], favorites := [c8Fav] }

/-- An author (role AUTHOR, pk 2) who does not own `c1Book`. -/
def c1Requester : UserRec := { id := 2, role := UserRole.author }

/-- A book owned by the author with pk 1. -/
def c1Book : BookRec := { id := 1, slug := "existing-book", authorId := 1 }

/-- A reviewer (role REVIEWER, pk 4) who does not own `c1Review`. -/
def c1ReviewRequester : UserRec := { id := 4, role := UserRole.reviewer }

/-- A review written by the reviewer with pk 3. -/
def c1Review : ReviewRec := { id := 1, bookId := 1, reviewerId := 3, rating := 4 }

/-- C1: contrary to the claim (and to the repository's own test
`test_delete_other_authors_book` and the IsAuthor docstring), the
permission evaluator grants a mutating request on an object the
requester does not own: an authenticated author may DELETE a book of a
different author, and an authenticated reviewer may DELETE a review of a
different reviewer, because `ReadOnly | IsAuthor` and
`ReadOnly | IsReviewer` contain no object-ownership check (IsAuthor and
IsReviewer inherit the always-true object-level check and IsOwner is not
in the list). -/
theorem C1_ownership_not_enforced :
    objectRequestAllowed BookViewSet_permission_classes
        { method := Method.DELETE, user := some c1Requester } (Obj.book c1Book) = true
      ∧ c1Requester.id ≠ c1Book.authorId
      ∧ objectRequestAllowed ReviewViewSet_permission_classes
          { method := Method.DELETE, user := some c1ReviewRequester } (Obj.review c1Review) = true
      ∧ c1ReviewRequester.id ≠ c1Review.reviewerId := by
  decide

/-- C2: contrary to the claim, a registration that supplies the
registrable role AUTHOR produces a user whose stored role is OTHER:
User.save overwrites the requested role with base_role on insert. -/
theorem C2_requested_role_discarded :
    UserRole.author ∈ RESTRICTED_ROLE_CHOICES
      ∧ (UserSerializer_create
          { username := "newuser", email := "new@example.com"
            password := "newpass123", role := UserRole.author } 1).role = UserRole.otherRole
      ∧ UserRole.otherRole ≠ UserRole.author := by
  decide

/-- C6: updating an existing non-admin user never changes the stored
role, whatever the payload (in particular a supplied role value is
dropped), and the other fields take exactly the supplied values, the
unsupplied ones keeping their old values. -/
theorem C6_role_immutable_on_update (u : UserState) (d : UserUpdateData)
    (hex : u.pk.isSome = true) (hrole : u.role ≠ UserRole.admin) :
    (UserSerializer_update u d).role = u.role
      ∧ (UserSerializer_update u d).pk = u.pk
      ∧ (UserSerializer_update u d).username = d.username.getD u.username
      ∧ (UserSerializer_update u d).email = d.email.getD u.email
      ∧ (UserSerializer_update u d).password = d.password.getD u.password := by
  cases u with
  | mk pk un em pw ro =>
      cases pk with
      | none => simp at hex
      | some k => simp [UserSerializer_update, User_save]

/-- Witness for C6 at a concrete user and payload. -/
theorem C6_role_immutable_on_update_witness :
    (UserSerializer_update
        { pk := some 7, username := "u", email := "e", password := "p", role := UserRole.reviewer }
        { username := some "u2", role := some UserRole.admin }).role = UserRole.reviewer
      ∧ (UserSerializer_update
          { pk := some 7, username := "u", email := "e", password := "p", role := UserRole.reviewer }
          { username := some "u2", role := some UserRole.admin }).pk = some 7
      ∧ (UserSerializer_update
          { pk := some 7, username := "u", email := "e", password := "p", role := UserRole.reviewer }
          { username := some "u2", role := some UserRole.admin }).username = "u2"
      ∧ (UserSerializer_update
          { pk := some 7, username := "u", email := "e", password := "p", role := UserRole.reviewer }
          { username := some "u2", role := some UserRole.admin }).email = "e"
      ∧ (UserSerializer_update
          { pk := some 7, username := "u", email := "e", password := "p", role := UserRole.reviewer }
          { username := some "u2", role := some UserRole.admin }).password = "p" :=
  C6_role_immutable_on_update
    { pk := some 7, username := "u", email := "e", password := "p", role := UserRole.reviewer }
    { username := some "u2", role := some UserRole.admin }
    (by decide) (by decide)

/-- C10: the user viewset permits the create action to every requester,
authenticated or not, while every other action passes the request-level
check exactly when the requester is authenticated. -/
theorem C10_user_create_open (a : String) (req : Request) (h : a ≠ "create") :
    checkPermissions (UserViewSet_get_permissions "create") req = true
      ∧ (checkPermissions (UserViewSet_get_permissions a) req = true ↔
          req.user.isSome = true) := by
  constructor
  · simp [UserViewSet_get_permissions, checkPermissions, AllowAny]
  · simp [UserViewSet_get_permissions, checkPermissions,
      UserViewSet_permission_classes, IsOwner, Request.isAuthenticated, h]

/-- Witness for C10: the list action with an unauthenticated request. -/
theorem C10_user_create_open_witness :
    checkPermissions (UserViewSet_get_permissions "create")
        { method := Method.GET, user := none } = true
      ∧ (checkPermissions (UserViewSet_get_permissions "list")
          { method := Method.GET, user := none } = true ↔
          (none : Option UserRec).isSome = true) :=
  C10_user_create_open "list" { method := Method.GET, user := none } (by decide)

/-- C4: the IsOwner object-ownership check returns true exactly when the
target is a User equal (by primary key) to the requesting user, a Book
whose author is the requesting user, a Review whose reviewer is the
requesting user, or a Favorites row whose user is the requesting user;
on an object of any other type it returns false. -/
theorem C4_isOwner_object_check (u : UserRec) (obj : Obj) :
    IsOwner_has_object_permission (some u) obj = true ↔
      ((∃ v : UserRec, obj = Obj.user v ∧ v.id = u.id) ∨
       (∃ b : BookRec, obj = Obj.book b ∧ b.authorId = u.id) ∨
       (∃ r : ReviewRec, obj = Obj.review r ∧ r.reviewerId = u.id) ∨
       (∃ f : FavRec, obj = Obj.favorite f ∧ f.userId = u.id)) := by
  cases obj <;>
    simp [IsOwner_has_object_permission, requestUserIs] <;>
    omega

/-- C5: the ReadOnly permission grants a request exactly when the method
is one of the safe methods and the requesting user is authenticated. -/
theorem C5_readOnly_bypass (req : Request) :
    ReadOnly.hasPermission req = true ↔
      (req.method ∈ SAFE_METHODS ∧ req.user.isSome = true) := by
  cases req with
  | mk m u e =>
      cases m <;>
        simp [ReadOnly, Request.isAuthenticated, SAFE_METHODS]

/-! ### Invariant preservation lemmas -/

/-- The rating check passes exactly on the integers 1..5. -/
theorem Review_rating_valid_iff (rating : Int) :
    Review_rating_valid rating = true ↔ (1 ≤ rating ∧ rating ≤ 5) := by
  simp only [Review_rating_valid, Bool.and_eq_true, decide_eq_true_eq]
  omega

/-- A review update never changes a row's primary key. -/
theorem Review_apply_update_id (rid bookId reviewerId : Nat) (rating : Int)
    (r : ReviewRec) :
    (Review_apply_update rid bookId reviewerId rating r).id = r.id := by
  unfold Review_apply_update
  split <;> rfl

/-- A favorite update never changes a row's primary key. -/
theorem Fav_apply_update_id (fid userId bookId : Nat) (f : FavRec) :
    (Fav_apply_update fid userId bookId f).id = f.id := by
  unfold Fav_apply_update
  split <;> rfl

/-- A successful review creation preserves the database invariant. -/
theorem Review_create_inv {db db2 : DB} {r : ReviewRec}
    (hinv : DBInv db) (h : Review_create db r = Except.ok db2) : DBInv db2 := by
  obtain ⟨hri, hrp, hfi, hfp⟩ := hinv
  unfold Review_create at h
  split_ifs at h with h1 h2 h3 <;> simp at h
  subst h
  refine ⟨?_, ?_, hfi, hfp⟩
  · simp only [reviewIdExists, List.any_eq_true, Bool.and_eq_true, beq_iff_eq,
      not_exists, not_and] at h3
    exact List.Pairwise.cons (fun b hb e => h3 b hb e.symm) hri
  · simp only [reviewPairExists, List.any_eq_true, Bool.and_eq_true, beq_iff_eq,
      not_exists, not_and] at h2
    refine List.Pairwise.cons (fun b hb => ?_) hrp
    have := h2 b hb
    omega

/-- A successful favorite creation preserves the database invariant. -/
theorem Favorites_create_inv {db db2 : DB} {f : FavRec}
    (hinv : DBInv db) (h : Favorites_create db f = Except.ok db2) : DBInv db2 := by
  obtain ⟨hri, hrp, hfi, hfp⟩ := hinv
  unfold Favorites_create at h
  split_ifs at h with h1 h2 <;> simp at h
  subst h
  refine ⟨hri, hrp, ?_, ?_⟩
  · simp only [favIdExists, List.any_eq_true, Bool.and_eq_true, beq_iff_eq,
      not_exists, not_and] at h2
    exact List.Pairwise.cons (fun b hb e => h2 b hb e.symm) hfi
  · simp only [favPairExists, List.any_eq_true, Bool.and_eq_true, beq_iff_eq,
      not_exists, not_and] at h1
    refine List.Pairwise.cons (fun b hb => ?_) hfp
    have := h1 b hb
    omega

/-- Deleting a review preserves the database invariant. -/
theorem Review_delete_inv {db : DB} (rid : Nat) (hinv : DBInv db) :
    DBInv (Review_delete db rid) := by
  obtain ⟨hri, hrp, hfi, hfp⟩ := hinv
  exact ⟨hri.sublist (List.filter_sublist _), hrp.sublist (List.filter_sublist _), hfi, hfp⟩

/-- Deleting a favorite preserves the database invariant. -/
theorem Favorites_delete_inv {db : DB} (fid : Nat) (hinv : DBInv db) :
    DBInv (Favorites_delete db fid) := by
  obtain ⟨hri, hrp, hfi, hfp⟩ := hinv
  exact ⟨hri, hrp, hfi.sublist (List.filter_sublist _), hfp.sublist (List.filter_sublist _)⟩

/-- A successful review update preserves the database invariant. -/
theorem Review_update_inv {db db2 : DB} {rid bookId reviewerId : Nat} {rating : Int}
    (hinv : DBInv db)
    (h : Review_update db rid bookId reviewerId rating = Except.ok db2) : DBInv db2 := by
  obtain ⟨hri, hrp, hfi, hfp⟩ := hinv
  unfold Review_update at h
  split_ifs at h with h1 h2 h3 <;> simp at h
  subst h
  have hids : ReviewIdsUnique
      (db.reviews.map (Review_apply_update rid bookId reviewerId rating)) := by
    rw [ReviewIdsUnique, List.pairwise_map]
    exact hri.imp fun hab => by
      simpa [Review_apply_update_id] using hab
  refine ⟨hids, ?_, hfi, hfp⟩
  simp only [List.any_eq_true, Bool.and_eq_true, bne_iff_ne, beq_iff_eq,
    not_exists, not_and] at h3
  rw [ReviewPairsUnique, List.pairwise_map]
  refine List.Pairwise.imp_of_mem ?_ (hri.and hrp)
  intro a b ha hb hab
  obtain ⟨hid, hpair⟩ := hab
  by_cases hA : a.id = rid <;> by_cases hB : b.id = rid
  · exact absurd (hA.trans hB.symm) hid
  · have hb2 := h3 b hb
    simp only [Review_apply_update, hA, hB, beq_iff_eq, if_true, if_false,
      if_pos, if_neg, reduceIte]
    simp [hA, hB]
    omega
  · have ha2 := h3 a ha
    simp only [Review_apply_update, beq_iff_eq]
    simp [hA, hB]
    omega
  · simp only [Review_apply_update, beq_iff_eq]
    simp [hA, hB]
    omega

/-- A successful favorite update preserves the database invariant. -/
theorem Favorites_update_inv {db db2 : DB} {fid userId bookId : Nat}
    (hinv : DBInv db)
    (h : Favorites_update db fid userId bookId = Except.ok db2) : DBInv db2 := by
  obtain ⟨hri, hrp, hfi, hfp⟩ := hinv
  unfold Favorites_update at h
  split_ifs at h with h1 h2 <;> simp at h
  subst h
  have hids : FavIdsUnique (db.favorites.map (Fav_apply_update fid userId bookId)) := by
    rw [FavIdsUnique, List.pairwise_map]
    exact hfi.imp fun hab => by
      simpa [Fav_apply_update_id] using hab
  refine ⟨hri, hrp, hids, ?_⟩
  simp only [List.any_eq_true, Bool.and_eq_true, bne_iff_ne, beq_iff_eq,
    not_exists, not_and] at h2
  rw [FavPairsUnique, List.pairwise_map]
  refine List.Pairwise.imp_of_mem ?_ (hfi.and hfp)
  intro a b ha hb hab
  obtain ⟨hid, hpair⟩ := hab
  by_cases hA : a.id = fid <;> by_cases hB : b.id = fid
  · exact absurd (hA.trans hB.symm) hid
  · have hb2 := h2 b hb
    simp only [Fav_apply_update, beq_iff_eq]
    simp [hA, hB]
    omega
  · have ha2 := h2 a ha
    simp only [Fav_apply_update, beq_iff_eq]
    simp [hA, hB]
    omega
  · simp only [Fav_apply_update, beq_iff_eq]
    simp [hA, hB]
    omega

/-- A commit preserves the invariant when success does. -/
theorem commit_inv {db : DB} {res : Except ApiError DB}
    (hok : ∀ db2, res = Except.ok db2 → DBInv db2) (hinv : DBInv db) :
    DBInv (commit res db) := by
  cases res with
  | ok db2 => exact hok db2 rfl
  | error e => exact hinv

/-- Every API call preserves the database invariant. -/
theorem applyOp_inv {db : DB} (op : Op) (hinv : DBInv db) : DBInv (applyOp db op) := by
  cases op with
  | createReview r => exact commit_inv (fun _ h => Review_create_inv hinv h) hinv
  | updateReview rid b v rt => exact commit_inv (fun _ h => Review_update_inv hinv h) hinv
  | deleteReview rid => exact Review_delete_inv rid hinv
  | createFavorite f => exact commit_inv (fun _ h => Favorites_create_inv hinv h) hinv
  | updateFavorite fid u b => exact commit_inv (fun _ h => Favorites_update_inv hinv h) hinv
  | deleteFavorite fid => exact Favorites_delete_inv fid hinv

/-- Every state reachable from the empty database satisfies the invariant. -/
theorem run_inv (ops : List Op) : DBInv (run ops) := by
  suffices h : ∀ db, DBInv db → DBInv (ops.foldl applyOp db) by
    exact h emptyDB ⟨List.Pairwise.nil, List.Pairwise.nil,
      List.Pairwise.nil, List.Pairwise.nil⟩
  induction ops with
  | nil => exact fun db h => h
  | cons op ops ih => exact fun db h => ih _ (applyOp_inv op h)

/-- Creating a review whose (book, reviewer) pair is already present
fails and leaves the database unchanged. -/
theorem Review_create_dup {db : DB} {r : ReviewRec}
    (h : reviewPairExists db.reviews r.bookId r.reviewerId = true) :
    (∃ e, Review_create db r = Except.error e) ∧
      applyOp db (Op.createReview r) = db := by
  have hc : ∃ e, Review_create db r = Except.error e := by
    unfold Review_create
    by_cases hv : Review_rating_valid r.rating
    · exact ⟨ApiError.uniqueViolation, by simp [hv, h]⟩
    · exact ⟨ApiError.validation, by simp [hv]⟩
  obtain ⟨e, he⟩ := hc
  exact ⟨⟨e, he⟩, by simp [applyOp, commit, he]⟩

/-- Creating a favorite whose (user, book) pair is already present fails
and leaves the database unchanged. -/
theorem Favorites_create_dup {db : DB} {f : FavRec}
    (h : favPairExists db.favorites f.userId f.bookId = true) :
    (∃ e, Favorites_create db f = Except.error e) ∧
      applyOp db (Op.createFavorite f) = db := by
  have he : Favorites_create db f = Except.error ApiError.uniqueViolation := by
    simp [Favorites_create, h]
  exact ⟨⟨ApiError.uniqueViolation, he⟩, by simp [applyOp, commit, he]⟩

/-- C3: in every state reachable by any sequence of create/update/delete
calls there is at most one review per (book, reviewer) pair and at most
one favorite per (user, book) pair; creating a second review for an
existing (book, reviewer) pair, or a second favorite for an existing
(user, book) pair, fails and leaves the state unchanged. -/
theorem C3_pair_uniqueness (ops : List Op) :
    ReviewPairsUnique (run ops).reviews ∧ FavPairsUnique (run ops).favorites
      ∧ (∀ r : ReviewRec,
          reviewPairExists (run ops).reviews r.bookId r.reviewerId = true →
            (∃ e, Review_create (run ops) r = Except.error e) ∧
              applyOp (run ops) (Op.createReview r) = run ops)
      ∧ (∀ f : FavRec,
          favPairExists (run ops).favorites f.userId f.bookId = true →
            (∃ e, Favorites_create (run ops) f = Except.error e) ∧
              applyOp (run ops) (Op.createFavorite f) = run ops) := by
  obtain ⟨h1, h2, h3, h4⟩ := run_inv ops
  exact ⟨h2, h4, fun r hr => Review_create_dup hr, fun f hf => Favorites_create_dup hf⟩

/-- Witness for C3: after creating one review, a second review for the
same (book, reviewer) pair is rejected without changing the state. -/
theorem C3_pair_uniqueness_witness :
    (∃ e, Review_create (run [Op.createReview c3Review0]) c3Review1 = Except.error e) ∧
      applyOp (run [Op.createReview c3Review0]) (Op.createReview c3Review1) =
        run [Op.createReview c3Review0] :=
  (C3_pair_uniqueness [Op.createReview c3Review0]).2.2.1 c3Review1 (by decide)

/-- C7: a review create or update succeeds only with a rating in 1..5,
and with a rating outside 1..5 it fails, the state unchanged. -/
theorem C7_rating_bounds (db : DB) (r : ReviewRec)
    (rid bookId reviewerId : Nat) (rating : Int) :
    (∀ db2, Review_create db r = Except.ok db2 → 1 ≤ r.rating ∧ r.rating ≤ 5)
      ∧ (∀ db2, Review_update db rid bookId reviewerId rating = Except.ok db2 →
          1 ≤ rating ∧ rating ≤ 5)
      ∧ (¬(1 ≤ r.rating ∧ r.rating ≤ 5) →
          Review_create db r = Except.error ApiError.validation ∧
            applyOp db (Op.createReview r) = db)
      ∧ (¬(1 ≤ rating ∧ rating ≤ 5) →
          applyOp db (Op.updateReview rid bookId reviewerId rating) = db) := by
  refine ⟨?_, ?_, ?_, ?_⟩
  · intro db2 h
    unfold Review_create at h
    split_ifs at h with h1 h2 h3 <;> simp at h
    simp only [Bool.not_eq_true', Bool.not_eq_false] at h1
    exact (Review_rating_valid_iff r.rating).mp h1
  · intro db2 h
    unfold Review_update at h
    split_ifs at h with h1 h2 h3 <;> simp at h
    simp only [Bool.not_eq_true', Bool.not_eq_false] at h2
    exact (Review_rating_valid_iff rating).mp h2
  · intro h
    have hv : Review_rating_valid r.rating = false := by
      cases hb : Review_rating_valid r.rating
      · rfl
      · exact absurd ((Review_rating_valid_iff r.rating).mp hb) h
    constructor
    · simp [Review_create, hv]
    · simp [applyOp, commit, Review_create, hv]
  · intro h
    have hv : Review_rating_valid rating = false := by
      cases hb : Review_rating_valid rating
      · rfl
      · exact absurd ((Review_rating_valid_iff rating).mp hb) h
    by_cases he : reviewIdExists db.reviews rid
    · simp [applyOp, commit, Review_update, he, hv]
    · simp [applyOp, commit, Review_update, he]

/-- Witness for C7: creating a review with rating 6 on the empty database
is rejected as a validation error and changes nothing. -/
theorem C7_rating_bounds_witness :
    Review_create emptyDB c7BadReview = Except.error ApiError.validation ∧
      applyOp emptyDB (Op.createReview c7BadReview) = emptyDB :=
  (C7_rating_bounds emptyDB c7BadReview 0 0 0 6).2.2.1 (by decide)

/-- The rows of the favorites queryset are exactly the stored favorites
filtered to the requesting user. -/
theorem FavoritesViewSet_rows (db : DB) (req : Request) :
    (FavoritesViewSet_get_queryset db req).rows =
      db.favorites.filter fun f => requestUserIs req.user f.userId := by
  by_cases h1 : is_expanded req "book" <;> by_cases h2 : is_expanded req "user" <;>
    simp [FavoritesViewSet_get_queryset, h1, h2]

/-- C8: every favorite reachable through the favorites endpoints belongs
to the requesting user, and the ownership check accepts it. -/
theorem C8_favorites_scoped (db : DB) (u : UserRec) (req : Request) (f : FavRec)
    (hu : req.user = some u)
    (hf : f ∈ (FavoritesViewSet_get_queryset db req).rows) :
    f.userId = u.id ∧
      IsOwner_has_object_permission req.user (Obj.favorite f) = true := by
  rw [FavoritesViewSet_rows] at hf
  obtain ⟨hmem, hpred⟩ := List.mem_filter.mp hf
  rw [hu] at hpred
  simp only [requestUserIs, beq_iff_eq] at hpred
  exact ⟨hpred.symm, by simp [IsOwner_has_object_permission, requestUserIs, hu, hpred]⟩

/-- Witness for C8 at a one-favorite database. -/
theorem C8_favorites_scoped_witness :
    c8Fav.userId = c8User.id ∧
      IsOwner_has_object_permission (some c8User) (Obj.favorite c8Fav) = true :=
  C8_favorites_scoped c8DB c8User
    { method := Method.GET, user := some c8User } c8Fav rfl (by decide)

/-- Membership in a conditionally-added singleton join. -/
theorem mem_expand_if (req : Request) (s name : String) :
    (name ∈ (if is_expanded req s then [s] else ([] : List String))) ↔
      (name ∈ req.expand ∧ name = s) := by
  by_cases h : is_expanded req s
  · have hs : s ∈ req.expand := by simpa [is_expanded] using h
    simp only [h, if_true, List.mem_singleton]
    constructor
    · intro he
      exact ⟨he ▸ hs, he⟩
    · exact fun hp => hp.2
  · have hs : s ∉ req.expand := by simpa [is_expanded] using h
    simp only [h, Bool.false_eq_true, if_false, List.not_mem_nil, false_iff, not_and]
    intro hmem heq
    exact hs (heq ▸ hmem)

/-- The joins of the book queryset, written as conditional singletons. -/
theorem BookViewSet_joins_eq (db : DB) (req : Request) :
    (BookViewSet_get_queryset db req).joins =
      (if is_expanded req "author" then ["author"] else []) ++
        (if is_expanded req "reviews" then ["reviews"] else []) := by
  by_cases h1 : is_expanded req "author" <;> by_cases h2 : is_expanded req "reviews" <;>
    simp [BookViewSet_get_queryset, Queryset.joins, h1, h2]

/-- The joins of the review queryset, written as conditional singletons. -/
theorem ReviewViewSet_joins_eq (db : DB) (req : Request) :
    (ReviewViewSet_get_queryset db req).joins =
      (if is_expanded req "book" then ["book"] else []) ++
        (if is_expanded req "reviewer" then ["reviewer"] else []) := by
  by_cases h1 : is_expanded req "book" <;> by_cases h2 : is_expanded req "reviewer" <;>
    simp [ReviewViewSet_get_queryset, Queryset.joins, h1, h2]

/-- The joins of the favorites queryset, written as conditional singletons. -/
theorem FavoritesViewSet_joins_eq (db : DB) (req : Request) :
    (FavoritesViewSet_get_queryset db req).joins =
      (if is_expanded req "book" then ["book"] else []) ++
        (if is_expanded req "user" then ["user"] else []) := by
  by_cases h1 : is_expanded req "book" <;> by_cases h2 : is_expanded req "user" <;>
    simp [FavoritesViewSet_get_queryset, Queryset.joins, h1, h2]

/-- The joins of the user queryset, written as conditional singletons. -/
theorem UserViewSet_joins_eq (db : DB) (req : Request) :
    (UserViewSet_get_queryset db req).joins =
      (if is_expanded req "books" then ["books"] else []) ++
        ((if is_expanded req "reviews" then ["reviews"] else []) ++
          (if is_expanded req "favorites" then ["favorites"] else [])) := by
  by_cases h1 : is_expanded req "books" <;> by_cases h2 : is_expanded req "reviews" <;>
    by_cases h3 : is_expanded req "favorites" <;>
      simp [UserViewSet_get_queryset, Queryset.joins, h1, h2, h3]

/-- C9: for each resource, a relation is joined or prefetched exactly
when its name is in the request's expand parameter and in the resource's
whitelist of expandable relations. -/
theorem C9_expand_whitelist (db : DB) (req : Request) (name : String) :
    (name ∈ (BookViewSet_get_queryset db req).joins ↔
        name ∈ req.expand ∧ name ∈ BookViewSet_permitted_expands)
      ∧ (name ∈ (ReviewViewSet_get_queryset db req).joins ↔
          name ∈ req.expand ∧ name ∈ ReviewViewSet_permitted_expands)
      ∧ (name ∈ (FavoritesViewSet_get_queryset db req).joins ↔
          name ∈ req.expand ∧ name ∈ FavoritesViewSet_permitted_expands)
      ∧ (name ∈ (UserViewSet_get_queryset db req).joins ↔
          name ∈ req.expand ∧ name ∈ UserViewSet_permitted_expands) := by
  refine ⟨?_, ?_, ?_, ?_⟩
  · rw [BookViewSet_joins_eq]
    simp only [List.mem_append, mem_expand_if, BookViewSet_permitted_expands,
      List.mem_cons, List.mem_singleton, List.not_mem_nil, or_false]
    tauto
  · rw [ReviewViewSet_joins_eq]
    simp only [List.mem_append, mem_expand_if, ReviewViewSet_permitted_expands,
      List.mem_cons, List.mem_singleton, List.not_mem_nil, or_false]
    tauto
  · rw [FavoritesViewSet_joins_eq]
    simp only [List.mem_append, mem_expand_if, FavoritesViewSet_permitted_expands,
      List.mem_cons, List.mem_singleton, List.not_mem_nil, or_false]
    tauto
  · rw [UserViewSet_joins_eq]
    simp only [List.mem_append, mem_expand_if, UserViewSet_permitted_expands,
      List.mem_cons, List.mem_singleton, List.not_mem_nil, or_false]
    tauto

end BookStore
